import Mathlib

/-!
Verification of the trendgenie-defi-scanner risk evaluation core.

This file gives a shallow embedding, in Lean 4, of the risk-evaluation core
of the scanner: the shared result data shape, the ownership check
(src/lib/risk/ownerCheck.ts), the honeypot check (src/lib/risk/honeypotCheck.ts
and the inline variant in src/app/api/scan/route.ts), the liquidity / LP-health
check (src/app/api/scan/route.ts), the aggregation policy
(aggregateOverallRisk in route.ts and aggregateResults in
src/lib/risk/aggregate.ts), the beginner/pro explanation renderer
(src/app/page.tsx) and the POST handler of src/app/api/scan/route.ts.

External collaborators (the RPC client, the HTTP client, JSON parsing and
address validation) are modelled as explicit outcome parameters: a fallible
external call is a `CallResult`, carrying either the decoded value or the
thrown error's message.  JavaScript numbers appearing in payloads and reserve
computations are modelled as exact rationals, and JavaScript string
truthiness as emptiness tests.
-/

/-- Traffic light risk level: type RiskLevel = "green" | "yellow" | "red". -/
inductive RiskLevel where
  | green
  | yellow
  | red
deriving DecidableEq, Repr

/-- Shared result shape emitted by every check (interface RiskCheckResult). -/
structure RiskCheckResult where
  id : String
  label : String
  level : RiskLevel
  details : String
deriving DecidableEq, Repr

/-- Overall verdict plus the per-check results (interface AggregatedRiskResult). -/
structure AggregatedRiskResult where
  overall : RiskLevel
  checks : List RiskCheckResult
deriving DecidableEq, Repr

/-- Supported chains: type Chain = "eth" | "bsc". -/
inductive Chain where
  | eth
  | bsc
deriving DecidableEq, Repr

/-- Outcome of one fallible external call: the decoded value, or the message of
the error the call threw / the promise rejected with. -/
inductive CallResult (α : Type) where
  | ok (value : α)
  | err (msg : String)
deriving DecidableEq, Repr

/-- Model of JavaScript String.prototype.toLowerCase, written over the
character list so that it evaluates inside the kernel. -/
def strToLower (s : String) : String := String.mk (s.data.map Char.toLower)

/-- Model of JavaScript String.prototype.trim. -/
def strTrim (s : String) : String :=
  let ws : Char → Bool := fun c => c == ' ' || c == '\t' || c == '\n' || c == '\r'
  String.mk (((s.data.dropWhile ws).reverse.dropWhile ws).reverse)

/-- Model of JavaScript Array.prototype.join: join with a separator, empty
string on the empty array. -/
def joinParts (sep : String) : List String → String
  | [] => ""
  | [x] => x
  | x :: y :: xs => x ++ sep ++ joinParts sep (y :: xs)

/-- Character-list containment used to model String.prototype.includes. -/
def listContainsSub (pat : List Char) : List Char → Bool
  | [] => pat.isEmpty
  | c :: rest => pat.isPrefixOf (c :: rest) || listContainsSub pat rest

/-- Model of JavaScript String.prototype.includes. -/
def strIncludes (s pat : String) : Bool := listContainsSub pat.data s.data

/-- Truthiness of an optional JavaScript string: undefined and "" are falsy. -/
def strTruthy : Option String → Bool
  | none => false
  | some s => !(s == "")

/-- Overall aggregation of src/app/api/scan/route.ts (aggregateOverallRisk):
any red makes red, otherwise any yellow makes yellow, else green. -/
def aggregateOverallRisk (checks : List RiskCheckResult) : RiskLevel :=
  if checks.any (fun c => decide (c.level = RiskLevel.red)) then RiskLevel.red
  else if checks.any (fun c => decide (c.level = RiskLevel.yellow)) then RiskLevel.yellow
  else RiskLevel.green

/-- Aggregator of src/lib/risk/aggregate.ts (aggregateResults): starts from
green, upgrades to red when the level list contains red, else to yellow when
it contains yellow, and returns the checks unchanged alongside the verdict. -/
def aggregateResults (checks : List RiskCheckResult) : AggregatedRiskResult :=
  let levels := checks.map (fun c => c.level)
  let overall :=
    if levels.contains RiskLevel.red then RiskLevel.red
    else if levels.contains RiskLevel.yellow then RiskLevel.yellow
    else RiskLevel.green
  { overall := overall, checks := checks }

/-- Canonical zero address (ethers.ZeroAddress / the ZERO_ADDRESS constant of
ownerCheck.ts). -/
def ZERO_ADDRESS : String := "0x0000000000000000000000000000000000000000"

/-- Sanity lemma used throughout: a risk level is one of the three
constructors. -/
theorem riskLevel_cases (l : RiskLevel) :
    l = RiskLevel.green ∨ l = RiskLevel.yellow ∨ l = RiskLevel.red := by
  cases l <;> simp

/-- Membership in a list is invariant under the Boolean any, specialised. -/
theorem any_level_eq (checks : List RiskCheckResult) (l : RiskLevel) :
    checks.any (fun c => decide (c.level = l)) = true ↔ ∃ c ∈ checks, c.level = l := by
  simp [List.any_eq_true]

/-- C1: the aggregator returns red iff some check is red; yellow iff no check
is red and some check is yellow; green iff every check is green.  The lib
aggregator aggregateResults computes the same overall level and passes the
checks through unchanged, and the verdict is invariant under permutation of
the check sequence (order and multiplicity independence). -/
theorem aggregate_worst_case_wins (checks : List RiskCheckResult) :
    (aggregateOverallRisk checks = RiskLevel.red ↔ ∃ c ∈ checks, c.level = RiskLevel.red) ∧
    (aggregateOverallRisk checks = RiskLevel.yellow ↔
      (¬ ∃ c ∈ checks, c.level = RiskLevel.red) ∧ ∃ c ∈ checks, c.level = RiskLevel.yellow) ∧
    (aggregateOverallRisk checks = RiskLevel.green ↔ ∀ c ∈ checks, c.level = RiskLevel.green) ∧
    aggregateResults checks = { overall := aggregateOverallRisk checks, checks := checks } ∧
    (∀ checks' : List RiskCheckResult, checks.Perm checks' →
      aggregateOverallRisk checks = aggregateOverallRisk checks') := by
  have hand : ∀ cs : List RiskCheckResult, ∀ l : RiskLevel,
      cs.any (fun c => decide (c.level = l)) = true ↔ ∃ c ∈ cs, c.level = l :=
    fun cs l => any_level_eq cs l
  refine ⟨?_, ?_, ?_, ?_, ?_⟩
  · unfold aggregateOverallRisk
    split_ifs with h1 h2
    · simpa using (hand checks RiskLevel.red).mp h1
    · constructor
      · intro h; exact absurd h (by simp)
      · intro hex; exact absurd ((hand checks RiskLevel.red).mpr hex) h1
    · constructor
      · intro h; exact absurd h (by simp)
      · intro hex; exact absurd ((hand checks RiskLevel.red).mpr hex) h1
  · unfold aggregateOverallRisk
    split_ifs with h1 h2
    · constructor
      · intro h; exact absurd h (by simp)
      · rintro ⟨hnored, -⟩
        exact absurd ((hand checks RiskLevel.red).mp h1) hnored
    · constructor
      · intro _
        refine ⟨?_, (hand checks RiskLevel.yellow).mp h2⟩
        intro hex
        exact (by simpa using h1 : ¬ _) ((hand checks RiskLevel.red).mpr hex)
      · intro _; rfl
    · constructor
      · intro h; exact absurd h (by simp)
      · rintro ⟨-, hyellow⟩
        exact absurd ((hand checks RiskLevel.yellow).mpr hyellow) (by simpa using h2)
  · unfold aggregateOverallRisk
    split_ifs with h1 h2
    · constructor
      · intro h; exact absurd h (by simp)
      · intro hall
        obtain ⟨c, hc, hcl⟩ := (hand checks RiskLevel.red).mp h1
        have := hall c hc
        rw [this] at hcl
        exact absurd hcl (by simp)
    · constructor
      · intro h; exact absurd h (by simp)
      · intro hall
        obtain ⟨c, hc, hcl⟩ := (hand checks RiskLevel.yellow).mp h2
        have := hall c hc
        rw [this] at hcl
        exact absurd hcl (by simp)
    · constructor
      · intro _
        intro c hc
        rcases riskLevel_cases c.level with h | h | h
        · exact h
        · exact absurd ((hand checks RiskLevel.yellow).mpr ⟨c, hc, h⟩) (by simpa using h2)
        · exact absurd ((hand checks RiskLevel.red).mpr ⟨c, hc, h⟩) (by simpa using h1)
      · intro _; rfl
  · have key : ∀ l : RiskLevel,
        ((checks.map (fun c => c.level)).contains l = true) ↔ ∃ c ∈ checks, c.level = l := by
      intro l
      simp
    have hcl : ∀ l : RiskLevel,
        (checks.map (fun c => c.level)).contains l = checks.any (fun c => decide (c.level = l)) := by
      intro l
      cases hA : checks.any (fun c => decide (c.level = l)) with
      | true => exact (key l).mpr ((any_level_eq checks l).mp hA)
      | false =>
        cases hB : (checks.map (fun c => c.level)).contains l with
        | false => rfl
        | true =>
          have := (any_level_eq checks l).mpr ((key l).mp hB)
          rw [hA] at this
          exact absurd this (by simp)
    unfold aggregateResults aggregateOverallRisk
    simp only [hcl]
  · intro checks' hperm
    have hany : ∀ l : RiskLevel,
        checks.any (fun c => decide (c.level = l)) = checks'.any (fun c => decide (c.level = l)) := by
      intro l
      cases hA : checks'.any (fun c => decide (c.level = l)) with
      | true =>
        rw [hand checks l]
        obtain ⟨c, hcmem, hcl⟩ := (hand checks' l).mp hA
        exact ⟨c, hperm.mem_iff.mpr hcmem, hcl⟩
      | false =>
        cases hB : checks.any (fun c => decide (c.level = l)) with
        | true =>
          obtain ⟨c, hcmem, hcl⟩ := (hand checks l).mp hB
          have := (hand checks' l).mpr ⟨c, hperm.mem_iff.mp hcmem, hcl⟩
          rw [hA] at this
          exact absurd this (by simp)
        | false => rfl
    unfold aggregateOverallRisk
    rw [hany RiskLevel.red, hany RiskLevel.yellow]

/-- Witness for the aggregator characterisation: instantiates the permutation
clause on a concrete two-element reordering. -/
theorem aggregate_worst_case_wins_witness :
    aggregateOverallRisk
        [⟨"a", "A", RiskLevel.yellow, "d"⟩, ⟨"b", "B", RiskLevel.green, "d"⟩] =
      aggregateOverallRisk
        [⟨"b", "B", RiskLevel.green, "d"⟩, ⟨"a", "A", RiskLevel.yellow, "d"⟩] :=
  (aggregate_worst_case_wins
      [⟨"a", "A", RiskLevel.yellow, "d"⟩, ⟨"b", "B", RiskLevel.green, "d"⟩]).2.2.2.2
    [⟨"b", "B", RiskLevel.green, "d"⟩, ⟨"a", "A", RiskLevel.yellow, "d"⟩]
    (List.Perm.swap _ _ _)

/-- Trusted infrastructure owner allow-list of src/lib/risk/ownerCheck.ts
(TRUSTED_OWNERS): empty for Ethereum, one PancakeSwap MasterChef entry for
BNB Chain. -/
def TRUSTED_OWNERS : Chain → List String
  | Chain.eth => []
  | Chain.bsc => ["0x73feaa1eE314F8c655E354234017bE2193C9E24E"]

/-- Case-insensitive membership in the trusted owner list (isTrustedOwner). -/
def isTrustedOwner (chain : Chain) (owner : String) : Bool :=
  let list := TRUSTED_OWNERS chain
  let lower := strToLower owner
  list.any (fun addr => strToLower addr == lower)

/-- External outcomes the ownership check depends on: the owner() view read
and the bytecode lookup at the owner address (viem readContract / getCode).
getCode yields none when the address has no code (undefined in viem). -/
structure OwnerEnv where
  readOwner : CallResult String
  getCode : String → CallResult (Option String)

/-- Result emitted by checkOwner when the owner read fails or the owner
pattern is non-standard (the catch branch of ownerCheck.ts). -/
def ownerUnknownResult : RiskCheckResult :=
  { id := "owner-unknown"
    label := "Contract Ownership"
    level := RiskLevel.green
    details := "This token does not expose a standard owner() function, or the call failed. Many older/upgradeable tokens use different patterns. Treat this as neutral – check other signals like liquidity, holders, and honeypot risk." }

/-- Yellow result for a wallet-controlled (EOA) owner, including the owner
address in the details text (the owner-eoa branch of ownerCheck.ts). -/
def ownerEoaResult (owner : String) : RiskCheckResult :=
  { id := "owner-eoa"
    label := "Contract Ownership"
    level := RiskLevel.yellow
    details := "Ownership is NOT renounced and is controlled by a normal wallet address (" ++ owner ++ "). This means the owner can potentially change critical parameters, mint/blacklist, or even block trading. Medium rug risk – only enter if you deeply trust the team." }

/-- Green result for a contract-controlled owner (the owner-contract branch
of ownerCheck.ts). -/
def ownerContractResult (owner : String) : RiskCheckResult :=
  { id := "owner-contract"
    label := "Contract Ownership"
    level := RiskLevel.green
    details := "Ownership is held by another contract (" ++ owner ++ "). This is usually a governance, timelock, or farm contract. Not automatically safe, but far better than a single private wallet. Read project docs to understand how that owner contract works." }

/-- Emptiness test on the bytecode returned by getCode: in ownerCheck.ts the
owner is treated as an EOA when the code is undefined, empty, or "0x". -/
def codeIsEmptyEOA : Option String → Bool
  | none => true
  | some s => s == "" || s == "0x"

/-- Ownership check of src/lib/risk/ownerCheck.ts (checkOwner).  The
validAddress flag stands for the collaborator isAddress(tokenAddress); the
env carries the outcomes of the two chain reads.  Any error thrown by either
read is caught and degraded to ownerUnknownResult. -/
def checkOwner (validAddress : Bool) (chain : Chain) (env : OwnerEnv) : RiskCheckResult :=
  if !validAddress then
    { id := "owner-invalid"
      label := "Contract Ownership"
      level := RiskLevel.red
      details := "Invalid token address passed into ownership check." }
  else
    match env.readOwner with
    | CallResult.err _ => ownerUnknownResult
    | CallResult.ok owner =>
      let ownerStr := strToLower owner
      if ownerStr == strToLower ZERO_ADDRESS then
        { id := "owner-renounced"
          label := "Contract Ownership"
          level := RiskLevel.green
          details := "Ownership appears renounced (owner is the zero address). Dev can no longer change contract parameters via Ownable." }
      else if isTrustedOwner chain owner then
        { id := "owner-trusted"
          label := "Contract Ownership"
          level := RiskLevel.green
          details := "Ownership is held by a known infrastructure contract (" ++ owner ++ "). This pattern is common for established DeFi protocols and is not a direct rug signal, but you should still check the project docs." }
      else
        match env.getCode owner with
        | CallResult.err _ => ownerUnknownResult
        | CallResult.ok code =>
          if codeIsEmptyEOA code then ownerEoaResult owner
          else ownerContractResult owner

/-- C2: whenever the owner read fails (function absent, revert, non-standard
interface), or the bytecode lookup later in the sequence throws, checkOwner
returns the owner-unknown result, which has level green and id
"owner-unknown" — never a worse level, and the embedding is total so no
exception escapes the check. -/
theorem checkOwner_failure_is_green_unknown (chain : Chain) (env : OwnerEnv) :
    (∀ m, env.readOwner = CallResult.err m →
      checkOwner true chain env = ownerUnknownResult) ∧
    (∀ owner m, env.readOwner = CallResult.ok owner →
      (strToLower owner == strToLower ZERO_ADDRESS) = false →
      isTrustedOwner chain owner = false →
      env.getCode owner = CallResult.err m →
      checkOwner true chain env = ownerUnknownResult) ∧
    ownerUnknownResult.level = RiskLevel.green ∧
    ownerUnknownResult.id = "owner-unknown" := by
  refine ⟨?_, ?_, rfl, rfl⟩
  · intro m hm
    simp [checkOwner, hm]
  · intro owner m hm hz ht hc
    simp [checkOwner, hm, hz, ht, hc]

/-- Witness environment for the C2 failure paths: the owner read itself
throws. -/
def ownerEnvReadFails : OwnerEnv :=
  { readOwner := CallResult.err "execution reverted"
    getCode := fun _ => CallResult.err "network down" }

/-- Witness environment for the C2 getCode failure path: the owner read
succeeds with a plain address but the bytecode lookup throws. -/
def ownerEnvCodeFails : OwnerEnv :=
  { readOwner := CallResult.ok "0xAb5801a7D398351b8bE11C439e05C5B3259aeC9B"
    getCode := fun _ => CallResult.err "network down" }

/-- Witness for C2 at concrete failing environments on both chains. -/
theorem checkOwner_failure_is_green_unknown_witness :
    checkOwner true Chain.eth ownerEnvReadFails = ownerUnknownResult ∧
    checkOwner true Chain.bsc ownerEnvCodeFails = ownerUnknownResult ∧
    ownerUnknownResult.level = RiskLevel.green ∧
    ownerUnknownResult.id = "owner-unknown" :=
  ⟨(checkOwner_failure_is_green_unknown Chain.eth ownerEnvReadFails).1
      "execution reverted" rfl,
   (checkOwner_failure_is_green_unknown Chain.bsc ownerEnvCodeFails).2.1
      "0xAb5801a7D398351b8bE11C439e05C5B3259aeC9B" "network down" rfl
      (by decide) (by decide) rfl,
   (checkOwner_failure_is_green_unknown Chain.eth ownerEnvReadFails).2.2.1,
   (checkOwner_failure_is_green_unknown Chain.eth ownerEnvReadFails).2.2.2⟩

/-- C5: when the owner read succeeds with an address that is neither the zero
address nor on the trusted list, checkOwner distinguishes by bytecode at the
owner address: empty code gives the yellow owner-eoa result, whose details
contain the owner address; non-empty code gives the green owner-contract
result. -/
theorem checkOwner_eoa_vs_contract (chain : Chain) (env : OwnerEnv)
    (owner : String) (code : Option String)
    (hread : env.readOwner = CallResult.ok owner)
    (hz : (strToLower owner == strToLower ZERO_ADDRESS) = false)
    (ht : isTrustedOwner chain owner = false)
    (hcode : env.getCode owner = CallResult.ok code) :
    (codeIsEmptyEOA code = true →
      checkOwner true chain env = ownerEoaResult owner ∧
      (ownerEoaResult owner).level = RiskLevel.yellow ∧
      (ownerEoaResult owner).id = "owner-eoa" ∧
      ∃ pre post, (ownerEoaResult owner).details = pre ++ owner ++ post) ∧
    (codeIsEmptyEOA code = false →
      checkOwner true chain env = ownerContractResult owner ∧
      (ownerContractResult owner).level = RiskLevel.green ∧
      (ownerContractResult owner).id = "owner-contract") := by
  constructor
  · intro heoa
    refine ⟨?_, rfl, rfl, ?_⟩
    · simp [checkOwner, hread, hz, ht, hcode, heoa]
    · exact ⟨"Ownership is NOT renounced and is controlled by a normal wallet address (",
        "). This means the owner can potentially change critical parameters, mint/blacklist, or even block trading. Medium rug risk – only enter if you deeply trust the team.",
        rfl⟩
  · intro hcontract
    refine ⟨?_, rfl, rfl⟩
    simp [checkOwner, hread, hz, ht, hcode, hcontract]

/-- Witness environment where the owner is an EOA (no bytecode). -/
def ownerEnvEoa : OwnerEnv :=
  { readOwner := CallResult.ok "0xAb5801a7D398351b8bE11C439e05C5B3259aeC9B"
    getCode := fun _ => CallResult.ok none }

/-- Witness environment where the owner is another contract. -/
def ownerEnvContract : OwnerEnv :=
  { readOwner := CallResult.ok "0xAb5801a7D398351b8bE11C439e05C5B3259aeC9B"
    getCode := fun _ => CallResult.ok (some "0x6080604052") }

/-- Witness for C5 at concrete environments: EOA owner yields the yellow
owner-eoa result and contract owner yields the green owner-contract result. -/
theorem checkOwner_eoa_vs_contract_witness :
    (checkOwner true Chain.eth ownerEnvEoa =
        ownerEoaResult "0xAb5801a7D398351b8bE11C439e05C5B3259aeC9B" ∧
      (ownerEoaResult "0xAb5801a7D398351b8bE11C439e05C5B3259aeC9B").level = RiskLevel.yellow) ∧
    checkOwner true Chain.eth ownerEnvContract =
        ownerContractResult "0xAb5801a7D398351b8bE11C439e05C5B3259aeC9B" :=
  ⟨⟨((checkOwner_eoa_vs_contract Chain.eth ownerEnvEoa
        "0xAb5801a7D398351b8bE11C439e05C5B3259aeC9B" none rfl (by decide) (by decide)
        rfl).1 rfl).1,
    ((checkOwner_eoa_vs_contract Chain.eth ownerEnvEoa
        "0xAb5801a7D398351b8bE11C439e05C5B3259aeC9B" none rfl (by decide) (by decide)
        rfl).1 rfl).2.1⟩,
   ((checkOwner_eoa_vs_contract Chain.eth ownerEnvContract
        "0xAb5801a7D398351b8bE11C439e05C5B3259aeC9B" (some "0x6080604052") rfl (by decide)
        (by decide) rfl).2 (by decide)).1⟩

/-- One flag of the Honeypot.is summary payload (interface
HoneypotSummaryFlag of honeypotCheck.ts). -/
structure HPFlag where
  flag : Option String
  description : Option String
  severity : Option String
  severityIndex : Option ℚ
deriving DecidableEq, Repr

/-- Summary block of the Honeypot.is payload (interface HoneypotSummary). -/
structure HPSummary where
  risk : Option String
  riskLevel : Option ℚ
  flags : Option (List HPFlag)
deriving DecidableEq, Repr

/-- honeypotResult block of the Honeypot.is payload. -/
structure HPHoneypotResult where
  isHoneypot : Option Bool
  honeypotReason : Option String
deriving DecidableEq, Repr

/-- simulationResult block of the Honeypot.is payload (tax percentages). -/
structure HPSimulationResult where
  buyTax : Option ℚ
  sellTax : Option ℚ
  transferTax : Option ℚ
deriving DecidableEq, Repr

/-- token block of the Honeypot.is payload. -/
structure HPTokenInfo where
  name : Option String
  symbol : Option String
deriving DecidableEq, Repr

/-- Loosely-typed decoded Honeypot.is response (interface
HoneypotApiResponse), every field optional. -/
structure HoneypotApiResponse where
  token : Option HPTokenInfo
  summary : Option HPSummary
  honeypotResult : Option HPHoneypotResult
  simulationResult : Option HPSimulationResult
deriving DecidableEq, Repr

/-- Risk taxonomy mapping of src/lib/risk/honeypotCheck.ts (mapRiskToLevel).
A truthy isHoneypot short-circuits to red; otherwise the risk category wins;
an unrecognized or absent category falls to the numeric bands on the
riskLevel score, which defaults to -1 when absent. -/
def mapRiskToLevel (risk : Option String) (riskLevel : Option ℚ)
    (isHoneypot : Option Bool) : RiskLevel :=
  if isHoneypot == some true then RiskLevel.red
  else
    let rl : ℚ := riskLevel.getD (-1)
    if risk == some "honeypot" then RiskLevel.red
    else if risk == some "very_high" then RiskLevel.red
    else if risk == some "high" then RiskLevel.red
    else if risk == some "medium" then RiskLevel.yellow
    else if risk == some "low" then RiskLevel.green
    else if risk == some "very_low" then RiskLevel.green
    else if 90 ≤ rl then RiskLevel.red
    else if 60 ≤ rl then RiskLevel.yellow
    else if 0 ≤ rl ∧ rl < 20 then RiskLevel.green
    else RiskLevel.yellow

/-- Replace the first underscore by a space, modelling the single-replacement
semantics of JavaScript risk.replace("_", " ") in buildDetails. -/
def replaceFirstUnderscore (s : String) : String :=
  match s.splitOn "_" with
  | [] => s
  | [_] => s
  | x :: y :: rest => x ++ " " ++ joinParts "_" (y :: rest)

/-- Token display name used by buildDetails: symbol (name) when both truthy,
else symbol, else name, else "This token". -/
def tokenNamePart (token : Option HPTokenInfo) : String :=
  match token with
  | none => "This token"
  | some t =>
    if strTruthy t.symbol && strTruthy t.name then
      t.symbol.getD "" ++ " (" ++ t.name.getD "" ++ ")"
    else if strTruthy t.symbol then t.symbol.getD ""
    else if strTruthy t.name then t.name.getD ""
    else "This token"

/-- Sentence about the summary risk rating (the first push of buildDetails):
present only when the risk string is truthy; mentions the numeric score when
the payload carries one. -/
def riskRatingPart (resp : HoneypotApiResponse) : List String :=
  match resp.summary.bind (fun s => s.risk) with
  | none => []
  | some r =>
    if r == "" then []
    else
      let prettyRisk := replaceFirstUnderscore r
      match resp.summary.bind (fun s => s.riskLevel) with
      | some rl =>
        [tokenNamePart resp.token ++ " is rated as \"" ++ prettyRisk ++
          "\" risk by Honeypot.is (score " ++ toString rl ++ "/100)."]
      | none =>
        [tokenNamePart resp.token ++ " is rated as \"" ++ prettyRisk ++
          "\" risk by Honeypot.is."]

/-- Sentence about a reported honeypot (the second push of buildDetails). -/
def honeypotReportPart (resp : HoneypotApiResponse) : List String :=
  match resp.honeypotResult with
  | none => []
  | some hp =>
    if hp.isHoneypot == some true then
      match hp.honeypotReason with
      | some reason =>
        if reason == "" then
          ["The token is reported as a honeypot (sell very likely blocked)."]
        else
          ["The token is reported as a honeypot. Reason: " ++ reason ++ "."]
      | none => ["The token is reported as a honeypot (sell very likely blocked)."]
    else []

/-- Sentence about detected taxes (the third push of buildDetails). -/
def taxesPart (resp : HoneypotApiResponse) : List String :=
  match resp.simulationResult with
  | none => []
  | some sim =>
    let taxes : List String :=
      (match sim.buyTax with
        | some t => ["buy tax ~" ++ toString t ++ "%"]
        | none => []) ++
      (match sim.sellTax with
        | some t => ["sell tax ~" ++ toString t ++ "%"]
        | none => []) ++
      (match sim.transferTax with
        | some t => ["transfer tax ~" ++ toString t ++ "%"]
        | none => [])
    if taxes.isEmpty then [] else ["Detected taxes: " ++ joinParts ", " taxes ++ "."]

/-- Stable insertion into a list sorted by descending severityIndex,
modelling the comparator (b.severityIndex ?? 0) - (a.severityIndex ?? 0) of
the stable Array.prototype.sort. -/
def insertFlagDesc (f : HPFlag) : List HPFlag → List HPFlag
  | [] => [f]
  | g :: gs =>
    if g.severityIndex.getD 0 ≤ f.severityIndex.getD 0 then f :: g :: gs
    else g :: insertFlagDesc f gs

/-- Stable sort of the flags by descending severityIndex. -/
def sortFlagsDesc : List HPFlag → List HPFlag
  | [] => []
  | f :: fs => insertFlagDesc f (sortFlagsDesc fs)

/-- Sentence about the top three most severe flags (the fourth push of
buildDetails); a flag text is its description, else its flag name, with
falsy texts filtered out. -/
def flagsPart (resp : HoneypotApiResponse) : List String :=
  match resp.summary.bind (fun s => s.flags) with
  | none => []
  | some flags =>
    if flags.isEmpty then []
    else
      let sorted := sortFlagsDesc flags
      let top := sorted.take 3
      let flagTexts :=
        (top.map (fun f =>
          if strTruthy f.description then f.description.getD "" else f.flag.getD "")).filter
          (fun t => !(t == ""))
      if flagTexts.isEmpty then []
      else ["Key warnings: " ++ joinParts " | " flagTexts]

/-- Fallback sentence of buildDetails when no payload field produced text,
keyed by the already-resolved level. -/
def fallbackDetails (level : RiskLevel) : String :=
  if level = RiskLevel.green then
    "No honeypot behaviour detected by Honeypot.is and no major warnings were returned."
  else
    "Honeypot.is did not return detailed data. Treat this token with caution and double-check before investing."

/-- Human readable summary string of src/lib/risk/honeypotCheck.ts
(buildDetails): the best-effort composition of rating, honeypot report,
taxes and flags, joined by spaces, with the fixed fallback when empty. -/
def buildDetails (resp : HoneypotApiResponse) (level : RiskLevel) : String :=
  let parts := riskRatingPart resp ++ honeypotReportPart resp ++
    taxesPart resp ++ flagsPart resp
  joinParts " " (if parts.isEmpty then [fallbackDetails level] else parts)

/-- Outcome of the guarded Honeypot.is request made by checkHoneypot: the
fetch or body decode threw (the outer catch), the response was non-2xx (text
body read with a fallback to ""), or the response was 2xx with decoded
JSON. -/
inductive HpFetchOutcome where
  | fail (msg : String)
  | notOk (status : Nat) (text : String)
  | okJson (json : HoneypotApiResponse)
deriving DecidableEq, Repr

/-- Honeypot check of src/lib/risk/honeypotCheck.ts (checkHoneypot): maps the
request outcome to a RiskCheckResult, degrading failures to yellow and never
raising. -/
def checkHoneypot (outcome : HpFetchOutcome) : RiskCheckResult :=
  match outcome with
  | HpFetchOutcome.fail msg =>
    { id := "honeypot-api-error"
      label := "Honeypot Risk (Honeypot.is)"
      level := RiskLevel.yellow
      details := "Could not complete honeypot check (network or timeout error). Error: " ++
        (if msg == "" then "unknown" else msg) ++
        ". Treat this result as neutral and do extra checks." }
  | HpFetchOutcome.notOk status text =>
    { id := "honeypot-api-failed"
      label := "Honeypot Risk (Honeypot.is)"
      level := RiskLevel.yellow
      details := "Failed to query Honeypot.is (HTTP " ++ toString status ++ "). Response: " ++
        (let t := text.take 200
         if t == "" then "no body" else t) ++
        ". Treat this as neutral and do extra checks manually." }
  | HpFetchOutcome.okJson json =>
    let risk := json.summary.bind (fun s => s.risk)
    let riskLevel := json.summary.bind (fun s => s.riskLevel)
    let isHoneypot := json.honeypotResult.bind (fun h => h.isHoneypot)
    let level := mapRiskToLevel risk riskLevel isHoneypot
    { id := "honeypot-api"
      label := "Honeypot Risk (Honeypot.is)"
      level := level
      details := buildDetails json level }

/-- Defensive payload view used by the inline honeypot check of route.ts:
the three places the isHoneypot flag is looked for (honeypotResult,
top-level, simulation). -/
structure RoutePayload where
  honeypotResultIsHoneypot : Option Bool
  topIsHoneypot : Option Bool
  simulationIsHoneypot : Option Bool
deriving DecidableEq, Repr

/-- Nullish coalescing of the three flag positions, as in
data?.honeypotResult?.isHoneypot ?? data?.isHoneypot ??
data?.simulation?.isHoneypot. -/
def coalesceIsHoneypot (data : RoutePayload) : Option Bool :=
  (data.honeypotResultIsHoneypot.orElse fun _ =>
    data.topIsHoneypot.orElse fun _ => data.simulationIsHoneypot)

/-- Outcome of the fetch made by the inline honeypot check of route.ts:
thrown error, or a response with ok flag, status, body text and the decoded
JSON when the body parses. -/
inductive RouteFetchOutcome where
  | fail (msg : String)
  | resp (ok : Bool) (status : Nat) (bodyText : String) (parsed : Option RoutePayload)
deriving DecidableEq, Repr

/-- Inline honeypot check of src/app/api/scan/route.ts (runHoneypotCheck):
non-2xx and non-JSON degrade to yellow, an explicit true flag gives red, an
explicit false gives green, anything else yellow; all errors are caught. -/
def runHoneypotCheck (outcome : RouteFetchOutcome) : RiskCheckResult :=
  match outcome with
  | RouteFetchOutcome.fail msg =>
    { id := "honeypot"
      label := "Honeypot Behaviour"
      level := RiskLevel.yellow
      details := "Honeypot check failed due to a network or parsing error: " ++ msg ++ "." }
  | RouteFetchOutcome.resp ok status bodyText parsed =>
    if !ok then
      if status == 404 then
        { id := "honeypot"
          label := "Honeypot Behaviour"
          level := RiskLevel.yellow
          details := "Failed to query Honeypot.is (HTTP 404). Response: " ++ bodyText ++
            ". Treat this as neutral and do extra checks manually." }
      else
        { id := "honeypot"
          label := "Honeypot Behaviour"
          level := RiskLevel.yellow
          details := "Honeypot.is request failed with status " ++ toString status ++
            ". Raw response: " ++ bodyText ++ "." }
    else
      match parsed with
      | none =>
        { id := "honeypot"
          label := "Honeypot Behaviour"
          level := RiskLevel.yellow
          details := "Honeypot.is returned non-JSON response. Raw body: " ++ bodyText ++ "." }
      | some data =>
        match coalesceIsHoneypot data with
        | some true =>
          { id := "honeypot"
            label := "Honeypot Behaviour"
            level := RiskLevel.red
            details := "Honeypot.is flagged this token as a honeypot in its trade simulation. This usually means sells are blocked or heavily taxed – extremely high scam risk." }
        | some false =>
          { id := "honeypot"
            label := "Honeypot Behaviour"
            level := RiskLevel.green
            details := "Honeypot.is did not detect honeypot behaviour in its simulation. This does NOT guarantee safety, but no obvious honeypot pattern was found." }
        | none =>
          { id := "honeypot"
            label := "Honeypot Behaviour"
            level := RiskLevel.yellow
            details := "Honeypot.is response was received but could not be interpreted cleanly. Treat this as unknown and combine with other risk checks." }

/-- C3: a true explicit honeypot flag forces level red in both honeypot
implementations, regardless of every other field: mapRiskToLevel ignores the
risk category and score, checkHoneypot therefore reports red on any payload
whose honeypotResult.isHoneypot is true, and the inline route check reports
red whenever the coalesced flag chain starts with true. -/
theorem honeypot_flag_true_forces_red :
    (∀ (risk : Option String) (riskLevel : Option ℚ),
      mapRiskToLevel risk riskLevel (some true) = RiskLevel.red) ∧
    (∀ (token : Option HPTokenInfo) (summary : Option HPSummary)
        (reason : Option String) (sim : Option HPSimulationResult),
      (checkHoneypot (HpFetchOutcome.okJson
          { token := token, summary := summary,
            honeypotResult := some { isHoneypot := some true, honeypotReason := reason },
            simulationResult := sim })).level = RiskLevel.red) ∧
    (∀ (status : Nat) (bodyText : String) (b c : Option Bool),
      (runHoneypotCheck (RouteFetchOutcome.resp true status bodyText
          (some { honeypotResultIsHoneypot := some true, topIsHoneypot := b,
                  simulationIsHoneypot := c }))).level = RiskLevel.red) := by
  refine ⟨?_, ?_, ?_⟩
  · intro risk riskLevel
    simp [mapRiskToLevel]
  · intro token summary reason sim
    simp [checkHoneypot, mapRiskToLevel]
  · intro status bodyText b c
    simp [runHoneypotCheck, coalesceIsHoneypot, Option.orElse]

/-- Category strings that mapRiskToLevel recognizes. -/
def recognizedRiskCategories : List String :=
  ["honeypot", "very_high", "high", "medium", "low", "very_low"]

/-- C4: with the honeypot flag not true, the category mapping holds:
honeypot, very_high and high give red; medium gives yellow; low and very_low
give green; and for an unrecognized or absent category with a numeric score
s, the level is red when s is at least 90, yellow when s is in [60, 90),
green when s is in [0, 20), and yellow otherwise (s in [20, 60) or s
negative).  checkHoneypot exposes exactly this mapping on a decoded 2xx
payload. -/
theorem mapRiskToLevel_category_bands (ihp : Option Bool) (h : ihp ≠ some true) :
    (∀ riskLevel : Option ℚ,
      mapRiskToLevel (some "honeypot") riskLevel ihp = RiskLevel.red ∧
      mapRiskToLevel (some "very_high") riskLevel ihp = RiskLevel.red ∧
      mapRiskToLevel (some "high") riskLevel ihp = RiskLevel.red ∧
      mapRiskToLevel (some "medium") riskLevel ihp = RiskLevel.yellow ∧
      mapRiskToLevel (some "low") riskLevel ihp = RiskLevel.green ∧
      mapRiskToLevel (some "very_low") riskLevel ihp = RiskLevel.green) ∧
    (∀ risk : Option String,
      (∀ r, risk = some r → r ∉ recognizedRiskCategories) →
      ∀ s : ℚ,
        (90 ≤ s → mapRiskToLevel risk (some s) ihp = RiskLevel.red) ∧
        (60 ≤ s → s < 90 → mapRiskToLevel risk (some s) ihp = RiskLevel.yellow) ∧
        (0 ≤ s → s < 20 → mapRiskToLevel risk (some s) ihp = RiskLevel.green) ∧
        (20 ≤ s → s < 60 → mapRiskToLevel risk (some s) ihp = RiskLevel.yellow) ∧
        (s < 0 → mapRiskToLevel risk (some s) ihp = RiskLevel.yellow)) ∧
    (∀ json : HoneypotApiResponse,
      (checkHoneypot (HpFetchOutcome.okJson json)).level =
        mapRiskToLevel (json.summary.bind (fun s => s.risk))
          (json.summary.bind (fun s => s.riskLevel))
          (json.honeypotResult.bind (fun hp => hp.isHoneypot))) := by
  have hb : (ihp == some true) = false := by
    cases ihp with
    | none => rfl
    | some b =>
      cases b with
      | true => exact absurd rfl h
      | false => rfl
  refine ⟨?_, ?_, ?_⟩
  · intro riskLevel
    refine ⟨?_, ?_, ?_, ?_, ?_, ?_⟩ <;> simp [mapRiskToLevel, hb]
  · intro risk hrisk s
    have hne : ∀ cat : String, cat ∈ recognizedRiskCategories →
        (risk == some cat) = false := by
      intro cat hcat
      cases risk with
      | none => rfl
      | some r =>
        have : r ≠ cat := fun hrc => hrisk r rfl (hrc ▸ hcat)
        simp [beq_iff_eq, this]
    have h1 := hne "honeypot" (by decide)
    have h2 := hne "very_high" (by decide)
    have h3 := hne "high" (by decide)
    have h4 := hne "medium" (by decide)
    have h5 := hne "low" (by decide)
    have h6 := hne "very_low" (by decide)
    refine ⟨?_, ?_, ?_, ?_, ?_⟩
    · intro hs
      simp only [mapRiskToLevel, hb, h1, h2, h3, h4, h5, h6]
      simp [Option.getD, hs]
    · intro hs1 hs2
      simp only [mapRiskToLevel, hb, h1, h2, h3, h4, h5, h6]
      simp only [Bool.false_eq_true, if_false, Option.getD_some]
      rw [if_neg (by linarith), if_pos hs1]
    · intro hs1 hs2
      simp only [mapRiskToLevel, hb, h1, h2, h3, h4, h5, h6]
      simp only [Bool.false_eq_true, if_false, Option.getD_some]
      rw [if_neg (by linarith), if_neg (by linarith), if_pos ⟨hs1, hs2⟩]
    · intro hs1 hs2
      simp only [mapRiskToLevel, hb, h1, h2, h3, h4, h5, h6]
      simp only [Bool.false_eq_true, if_false, Option.getD_some]
      rw [if_neg (by linarith), if_neg (by linarith), if_neg (by intro hc; linarith [hc.2])]
    · intro hs
      simp only [mapRiskToLevel, hb, h1, h2, h3, h4, h5, h6]
      simp only [Bool.false_eq_true, if_false, Option.getD_some]
      rw [if_neg (by linarith), if_neg (by linarith), if_neg (by intro hc; linarith [hc.1])]
  · intro json
    rfl

/-- Witness for C4 at concrete inputs: a recognized category beats the score,
and the numeric bands fire at 95, 70, 10 and 30 with the flag absent or
false. -/
theorem mapRiskToLevel_category_bands_witness :
    mapRiskToLevel (some "medium") (some 95) none = RiskLevel.yellow ∧
    mapRiskToLevel (some "unknown") (some 95) none = RiskLevel.red ∧
    mapRiskToLevel none (some 70) (some false) = RiskLevel.yellow ∧
    mapRiskToLevel (some "unknown") (some 10) none = RiskLevel.green ∧
    mapRiskToLevel (some "unknown") (some 30) none = RiskLevel.yellow :=
  ⟨((mapRiskToLevel_category_bands none (by decide)).1 (some 95)).2.2.2.1,
   (((mapRiskToLevel_category_bands none (by decide)).2.1 (some "unknown")
      (fun r hr => by cases hr; decide) 95).1 (by norm_num)),
   (((mapRiskToLevel_category_bands (some false) (by decide)).2.1 none
      (fun r hr => by cases hr) 70).2.1 (by norm_num) (by norm_num)),
   (((mapRiskToLevel_category_bands none (by decide)).2.1 (some "unknown")
      (fun r hr => by cases hr; decide) 10).2.2.1 (by norm_num) (by norm_num)),
   (((mapRiskToLevel_category_bands none (by decide)).2.1 (some "unknown")
      (fun r hr => by cases hr; decide) 30).2.2.2.1 (by norm_num) (by norm_num))⟩

/-- Whether a base asset is a stablecoin or the chain's wrapped native
asset (kind field of BaseTokenConfig in route.ts). -/
inductive BaseKind where
  | stable
  | native
deriving DecidableEq, Repr

/-- Configuration of one base asset to pair against (type BaseTokenConfig of
route.ts). -/
structure BaseTokenConfig where
  address : String
  symbol : String
  decimals : Nat
  kind : BaseKind
deriving DecidableEq, Repr

/-- Per-chain DEX configuration: factory address and prioritized base token
list (DEX_CONFIG of route.ts). -/
structure DexChainConfig where
  factory : String
  baseTokens : List BaseTokenConfig
deriving DecidableEq, Repr

/-- DEX_CONFIG of src/app/api/scan/route.ts: Uniswap V2 factory with WETH,
USDT, USDC on Ethereum; PancakeSwap V2 factory with WBNB, USDT, BUSD on BNB
Chain. -/
def DEX_CONFIG : Chain → DexChainConfig
  | Chain.eth =>
    { factory := "0x5C69bEe701ef814a2B6a3EDD4B1652CB9cc5aA6f"
      baseTokens :=
        [{ address := "0xC02aaA39b223FE8D0A0E5C4F27eAD9083C756Cc2", symbol := "WETH",
           decimals := 18, kind := BaseKind.native },
         { address := "0xdAC17F958D2ee523a2206206994597C13D831ec7", symbol := "USDT",
           decimals := 6, kind := BaseKind.stable },
         { address := "0xA0b86991c6218b36c1d19D4a2e9Eb0cE3606eB48", symbol := "USDC",
           decimals := 6, kind := BaseKind.stable }] }
  | Chain.bsc =>
    { factory := "0xca143ce32fe78f1f7019d7d551a6402fc5350c73"
      baseTokens :=
        [{ address := "0xbb4CdB9CBd36B01bD1cBaEBF2De08d9173bc095c", symbol := "WBNB",
           decimals := 18, kind := BaseKind.native },
         { address := "0x55d398326f99059fF775485246999027B3197955", symbol := "USDT",
           decimals := 18, kind := BaseKind.stable },
         { address := "0xe9e7CEA3DedcA5984780Bafc599bD69ADd087D56", symbol := "BUSD",
           decimals := 18, kind := BaseKind.stable }] }

/-- The three pair reads issued together for a candidate pool (token0,
token1, getReserves, awaited via Promise.all: one failure fails them all). -/
structure PairData where
  token0 : String
  token1 : String
  reserve0 : Nat
  reserve1 : Nat
deriving DecidableEq, Repr

/-- External outcomes the liquidity check depends on: the factory getPair
lookup, the combined pair reads, and the token decimals metadata read. -/
structure LpEnv where
  getPair : String → String → CallResult String
  pairData : String → CallResult PairData
  decimals : String → CallResult Nat

/-- Exact value of ethers.formatUnits followed by parseFloat: the raw
integer scaled down by 10 to the decimals, as a rational. -/
def formatUnitsQ (raw : Nat) (decimals : Nat) : ℚ := (raw : ℚ) / (10 : ℚ) ^ decimals

/-- A discovered pool: pair address, the matched base config and the two
human-scale reserves (type FoundPool of route.ts). -/
structure FoundPool where
  pairAddress : String
  base : BaseTokenConfig
  baseReserve : ℚ
  tokenReserve : ℚ
deriving DecidableEq, Repr

/-- Priority-order scan over the base token list from the try block of
analyzeLiquidityAndLpHealth.  Bases without a pool (empty or zero pair
address) and pairs whose token0/token1 do not match the expected pair are
skipped; a thrown factory or pair read aborts the whole loop, leaving no
pool found (the catch falls through); the decimals read failure defaults to
18; the first usable pool wins. -/
def findPoolLoop (env : LpEnv) (tokenAddress : String) :
    List BaseTokenConfig → Option FoundPool
  | [] => none
  | base :: rest =>
    match env.getPair tokenAddress base.address with
    | CallResult.err _ => none
    | CallResult.ok pairAddress =>
      if pairAddress == "" || pairAddress == ZERO_ADDRESS then
        findPoolLoop env tokenAddress rest
      else
        match env.pairData pairAddress with
        | CallResult.err _ => none
        | CallResult.ok pd =>
          let tokenLower := strToLower tokenAddress
          let token0Lower := strToLower pd.token0
          let token1Lower := strToLower pd.token1
          let sides : Option (Nat × Nat) :=
            if token0Lower == tokenLower && token1Lower == strToLower base.address then
              some (pd.reserve0, pd.reserve1)
            else if token1Lower == tokenLower && token0Lower == strToLower base.address then
              some (pd.reserve1, pd.reserve0)
            else none
          match sides with
          | none => findPoolLoop env tokenAddress rest
          | some (tokenReserveRaw, baseReserveRaw) =>
            let tokenDecimals :=
              match env.decimals tokenAddress with
              | CallResult.ok d => d
              | CallResult.err _ => 18
            some
              { pairAddress := pairAddress
                base := base
                baseReserve := formatUnitsQ baseReserveRaw base.decimals
                tokenReserve := formatUnitsQ tokenReserveRaw tokenDecimals }

/-- Red result of the liquidity check when no usable pool was found (also
the degraded outcome after a caught factory/pool read error). -/
def noUsablePoolResult : RiskCheckResult :=
  { id := "lp-health"
    label := "Liquidity & LP Health"
    level := RiskLevel.red
    details := "No primary DEX liquidity pool was found for this token on the main Uniswap / PancakeSwap-style factories against WETH/WBNB or common stablecoins. That usually means trading is extremely illiquid or only happens on obscure DEXes – very high exit risk." }

/-- Threshold ladders of analyzeLiquidityAndLpHealth: stablecoin bases use
2000 and 10000, native bases use 5 and 30; returns the level and the
headline sentence. -/
def classifyLiquidity (kind : BaseKind) (baseReserve : ℚ) : RiskLevel × String :=
  match kind with
  | BaseKind.stable =>
    if baseReserve < 2000 then
      (RiskLevel.red, "Extremely thin stablecoin liquidity. A few thousand dollars can move the price massively or drain the pool.")
    else if baseReserve < 10000 then
      (RiskLevel.yellow, "Moderate stablecoin liquidity. Small buys/sells will move price, but pool is not completely empty.")
    else
      (RiskLevel.green, "Decent stablecoin-side liquidity. Big whales can still move price, but retail entries/exits are less likely to instantly nuke the chart.")
  | BaseKind.native =>
    if baseReserve < 5 then
      (RiskLevel.red, "Very thin native asset liquidity. Only a few WETH/WBNB in the pool – easy to manipulate and hard to exit size.")
    else if baseReserve < 30 then
      (RiskLevel.yellow, "Medium native asset liquidity. Enough depth for small trades, but still vulnerable to sharp moves and dumps.")
    else
      (RiskLevel.green, "Relatively deep native asset liquidity. This does not remove risk, but basic exit liquidity looks reasonable.")

/-- Truncated pair address shown in the details text. -/
def shortPairAddress (pairAddress : String) : String :=
  pairAddress.take 6 ++ "…" ++ pairAddress.takeRight 4

/-- Liquidity / LP-health check of src/app/api/scan/route.ts
(analyzeLiquidityAndLpHealth).  Numeric rendering of the reserves in the
details text uses the canonical rational rendering in place of toFixed(3);
the claims only inspect the level and non-emptiness of details. -/
def analyzeLiquidityAndLpHealth (tokenAddress : String) (chain : Chain)
    (env : LpEnv) : RiskCheckResult :=
  match findPoolLoop env tokenAddress (DEX_CONFIG chain).baseTokens with
  | none => noUsablePoolResult
  | some fp =>
    let cls := classifyLiquidity fp.base.kind fp.baseReserve
    let details := joinParts "\n"
      [cls.2,
       "",
       "Detected pool on " ++
         (if chain = Chain.eth then "Uniswap V2-style DEX" else "PancakeSwap V2-style DEX") ++
         " with base pair " ++ fp.base.symbol ++ ".",
       "• Token side reserve: ~" ++ toString fp.tokenReserve ++ " tokens",
       "• " ++ fp.base.symbol ++ " side reserve: ~" ++ toString fp.baseReserve ++ " " ++ fp.base.symbol,
       "• Pair address: " ++ shortPairAddress fp.pairAddress,
       "",
       "This is a basic view of liquidity depth only. It does not yet analyse whether LP tokens are locked or who holds the LP – always check the pool on Etherscan/BscScan and any lock information from lockers like Unicrypt/TeamFinance/PinkLock."]
    { id := "lp-health"
      label := "Liquidity & LP Health"
      level := cls.1
      details := details }

/-- C6: no usable pool on any configured base asset gives the red no-pool
result; a found pool is classified by the base-side reserve through
classifyLiquidity, whose ladders are 2000/10000 for stablecoin bases and
5/30 for the native base; in particular stablecoin reserves 1500, 5000 and
50000 give red, yellow and green. -/
theorem liquidity_classification (tokenAddress : String) (chain : Chain) (env : LpEnv) :
    (findPoolLoop env tokenAddress (DEX_CONFIG chain).baseTokens = none →
      analyzeLiquidityAndLpHealth tokenAddress chain env = noUsablePoolResult ∧
      noUsablePoolResult.level = RiskLevel.red) ∧
    (∀ fp, findPoolLoop env tokenAddress (DEX_CONFIG chain).baseTokens = some fp →
      (analyzeLiquidityAndLpHealth tokenAddress chain env).level =
        (classifyLiquidity fp.base.kind fp.baseReserve).1) ∧
    (∀ q : ℚ,
      (q < 2000 → (classifyLiquidity BaseKind.stable q).1 = RiskLevel.red) ∧
      (2000 ≤ q → q < 10000 → (classifyLiquidity BaseKind.stable q).1 = RiskLevel.yellow) ∧
      (10000 ≤ q → (classifyLiquidity BaseKind.stable q).1 = RiskLevel.green) ∧
      (q < 5 → (classifyLiquidity BaseKind.native q).1 = RiskLevel.red) ∧
      (5 ≤ q → q < 30 → (classifyLiquidity BaseKind.native q).1 = RiskLevel.yellow) ∧
      (30 ≤ q → (classifyLiquidity BaseKind.native q).1 = RiskLevel.green)) ∧
    (classifyLiquidity BaseKind.stable 1500).1 = RiskLevel.red ∧
    (classifyLiquidity BaseKind.stable 5000).1 = RiskLevel.yellow ∧
    (classifyLiquidity BaseKind.stable 50000).1 = RiskLevel.green := by
  refine ⟨?_, ?_, ?_, by decide, by decide, by decide⟩
  · intro h
    exact ⟨by simp [analyzeLiquidityAndLpHealth, h], rfl⟩
  · intro fp h
    simp [analyzeLiquidityAndLpHealth, h]
  · intro q
    refine ⟨?_, ?_, ?_, ?_, ?_, ?_⟩ <;> intros <;>
      simp only [classifyLiquidity] <;> split_ifs <;> first | rfl | linarith

/-- Concrete liquidity environment whose factory lookup throws. -/
def lpEnvFactoryErr : LpEnv :=
  { getPair := fun _ _ => CallResult.err "factory call failed"
    pairData := fun _ => CallResult.err "unreachable"
    decimals := fun _ => CallResult.err "unreachable" }

/-- Concrete token address used by the liquidity witnesses. -/
def lpTokenW : String := "0xaaaaaaaaaaaaaaaaaaaaaaaaaaaaaaaaaaaaaaaa"

/-- Concrete liquidity environment exposing a WETH pool with 50 WETH and
1000 tokens of base-side and token-side raw reserves at 18 decimals. -/
def lpEnvPoolW : LpEnv :=
  { getPair := fun _ _ => CallResult.ok "0x1234567890abcdef1234567890abcdef12345678"
    pairData := fun _ => CallResult.ok
      { token0 := "0xaaaaaaaaaaaaaaaaaaaaaaaaaaaaaaaaaaaaaaaa"
        token1 := "0xC02aaA39b223FE8D0A0E5C4F27eAD9083C756Cc2"
        reserve0 := 1000 * 10 ^ 18
        reserve1 := 50 * 10 ^ 18 }
    decimals := fun _ => CallResult.ok 18 }

/-- The pool that lpEnvPoolW discovers, extracted by computation. -/
def lpFoundPoolW : FoundPool :=
  match findPoolLoop lpEnvPoolW lpTokenW (DEX_CONFIG Chain.eth).baseTokens with
  | some fp => fp
  | none =>
    { pairAddress := ""
      base := { address := "", symbol := "", decimals := 0, kind := BaseKind.stable }
      baseReserve := 0
      tokenReserve := 0 }

/-- Witness for C6: the failing environment yields the red no-pool result,
the pool environment is classified through classifyLiquidity, and the
native-base ladder fires at reserve 50. -/
theorem liquidity_classification_witness :
    analyzeLiquidityAndLpHealth lpTokenW Chain.eth lpEnvFactoryErr = noUsablePoolResult ∧
    (analyzeLiquidityAndLpHealth lpTokenW Chain.eth lpEnvPoolW).level =
      (classifyLiquidity lpFoundPoolW.base.kind lpFoundPoolW.baseReserve).1 ∧
    (classifyLiquidity BaseKind.native 50).1 = RiskLevel.green ∧
    (classifyLiquidity BaseKind.stable 1500).1 = RiskLevel.red :=
  ⟨((liquidity_classification lpTokenW Chain.eth lpEnvFactoryErr).1 rfl).1,
   (liquidity_classification lpTokenW Chain.eth lpEnvPoolW).2.1 lpFoundPoolW rfl,
   (((liquidity_classification lpTokenW Chain.eth lpEnvPoolW).2.2.1 50).2.2.2.2.2
     (by norm_num)),
   (liquidity_classification lpTokenW Chain.eth lpEnvPoolW).2.2.2.1⟩

/-- C7: a thrown factory getPair read or a thrown pool read aborts the
discovery loop with no pool found, and a scan with no pool found returns
exactly the red no-usable-pool result; the embedding is total, so the error
never propagates. -/
theorem liquidity_errors_degrade_to_no_pool :
    (∀ (env : LpEnv) (tokenAddress m : String) (base : BaseTokenConfig)
        (rest : List BaseTokenConfig),
      env.getPair tokenAddress base.address = CallResult.err m →
      findPoolLoop env tokenAddress (base :: rest) = none) ∧
    (∀ (env : LpEnv) (tokenAddress pairAddress m : String) (base : BaseTokenConfig)
        (rest : List BaseTokenConfig),
      env.getPair tokenAddress base.address = CallResult.ok pairAddress →
      (pairAddress == "" || pairAddress == ZERO_ADDRESS) = false →
      env.pairData pairAddress = CallResult.err m →
      findPoolLoop env tokenAddress (base :: rest) = none) ∧
    (∀ (tokenAddress : String) (chain : Chain) (env : LpEnv),
      findPoolLoop env tokenAddress (DEX_CONFIG chain).baseTokens = none →
      analyzeLiquidityAndLpHealth tokenAddress chain env = noUsablePoolResult) := by
  refine ⟨?_, ?_, ?_⟩
  · intro env tokenAddress m base rest h
    simp [findPoolLoop, h]
  · intro env tokenAddress pairAddress m base rest hg hp hd
    simp [findPoolLoop, hg, hp, hd]
  · intro tokenAddress chain env h
    simp [analyzeLiquidityAndLpHealth, h]

/-- Concrete liquidity environment whose pair reads throw after a pool
address was returned. -/
def lpEnvPairErr : LpEnv :=
  { getPair := fun _ _ => CallResult.ok "0x1234567890abcdef1234567890abcdef12345678"
    pairData := fun _ => CallResult.err "pair read failed"
    decimals := fun _ => CallResult.ok 18 }

/-- Base config used by the C7 witness. -/
def lpBaseW : BaseTokenConfig :=
  { address := "0xC02aaA39b223FE8D0A0E5C4F27eAD9083C756Cc2", symbol := "WETH",
    decimals := 18, kind := BaseKind.native }

/-- Witness for C7: both error sites collapse to no pool found, and the
whole check then returns the red no-usable-pool result. -/
theorem liquidity_errors_degrade_to_no_pool_witness :
    findPoolLoop lpEnvFactoryErr lpTokenW [lpBaseW] = none ∧
    findPoolLoop lpEnvPairErr lpTokenW [lpBaseW] = none ∧
    analyzeLiquidityAndLpHealth lpTokenW Chain.bsc lpEnvFactoryErr = noUsablePoolResult :=
  ⟨liquidity_errors_degrade_to_no_pool.1 lpEnvFactoryErr lpTokenW "factory call failed"
      lpBaseW [] rfl,
   liquidity_errors_degrade_to_no_pool.2.1 lpEnvPairErr lpTokenW
      "0x1234567890abcdef1234567890abcdef12345678" "pair read failed" lpBaseW []
      rfl (by decide) rfl,
   liquidity_errors_degrade_to_no_pool.2.2 lpTokenW Chain.bsc lpEnvFactoryErr rfl⟩

/-- Explanation audience mode of src/app/page.tsx. -/
inductive ExplainMode where
  | beginner
  | pro
deriving DecidableEq, Repr

/-- Beginner-mode summary of src/app/page.tsx (getBeginnerSummary): the check
family is guessed from the label, with ownership and honeypot families
getting level-specific sentences and everything else the three generic
fallback sentences keyed by level. -/
def getBeginnerSummary (check : RiskCheckResult) : String :=
  let isOwnership := strIncludes (strToLower check.label) "ownership"
  let isHoneypot := strIncludes (strToLower check.label) "honeypot"
  if isOwnership then
    match check.level with
    | RiskLevel.green => "Ownership looks okay. Either it’s renounced or handled in a way that is common for established projects."
    | RiskLevel.yellow => "Contract is still controlled by a wallet. Team can change important settings, so there is real rug risk if they are not trusted."
    | RiskLevel.red => "Ownership looks dangerous. This setup gives too much power to someone over the contract."
  else if isHoneypot then
    match check.level with
    | RiskLevel.green => "No honeypot behaviour was detected in this basic check. You should still be careful, but it doesn’t look like an obvious trap."
    | RiskLevel.yellow => "Honeypot checks were inconclusive or the token is not in the honeypot database. Treat it as unknown / risky and look deeper."
    | RiskLevel.red => "High honeypot risk. This token may block sells or heavily tax trades – very likely a trap."
  else
    match check.level with
    | RiskLevel.green => "This signal looks fine and does not show obvious danger."
    | RiskLevel.yellow => "There are some warning signs here. You should dig deeper before entering."
    | RiskLevel.red => "This signal is strongly negative. Assume high risk unless proven otherwise."

/-- Rendered text lines of src/app/page.tsx (renderDetails): pro mode shows
the raw details; beginner mode shows the summary followed by the original
details demoted to a technical-details line. -/
def renderDetails (mode : ExplainMode) (check : RiskCheckResult) : List String :=
  match mode with
  | ExplainMode.pro => [check.details]
  | ExplainMode.beginner =>
    [getBeginnerSummary check, "Technical details: " ++ check.details]

/-- String append with a non-empty left part is non-empty. -/
theorem append_ne_empty_left (a b : String) (h : a ≠ "") : a ++ b ≠ "" := by
  intro hab
  apply h
  have hl : (a ++ b).length = 0 := by rw [hab]; rfl
  rw [String.length_append] at hl
  cases a with
  | mk data =>
    have : data.length = 0 := by simpa [String.length] using (by omega : (String.mk data).length = 0)
    simp [List.length_eq_zero.mp this]

/-- String append with a non-empty right part is non-empty. -/
theorem append_ne_empty_right (a b : String) (h : b ≠ "") : a ++ b ≠ "" := by
  intro hab
  apply h
  have hl : (a ++ b).length = 0 := by rw [hab]; rfl
  rw [String.length_append] at hl
  cases b with
  | mk data =>
    have : data.length = 0 := by simpa [String.length] using (by omega : (String.mk data).length = 0)
    simp [List.length_eq_zero.mp this]

/-- C9: the beginner summary is non-empty for every check result and level
(including unrecognized families through the generic fallback), and the
beginner rendering is exactly the summary line followed by the original
details on the technical-details line. -/
theorem beginner_rendering_total (check : RiskCheckResult) :
    getBeginnerSummary check ≠ "" ∧
    renderDetails ExplainMode.beginner check =
      [getBeginnerSummary check, "Technical details: " ++ check.details] ∧
    renderDetails ExplainMode.pro check = [check.details] := by
  refine ⟨?_, rfl, rfl⟩
  unfold getBeginnerSummary
  by_cases ho : strIncludes (strToLower check.label) "ownership" = true <;>
    by_cases hh : strIncludes (strToLower check.label) "honeypot" = true <;>
      simp only [ho, hh, if_true, if_false, Bool.false_eq_true] <;>
        cases check.level <;> decide

/-- Outcomes of the two Ownable reads tried by the inline ownership check of
route.ts (contract.owner() and contract.getOwner()). -/
structure EthersOwnerEnv where
  ownerCall : CallResult String
  getOwnerCall : CallResult String
deriving DecidableEq, Repr

/-- One attempt of tryReadOwner: a successful non-empty non-zero read
returns the owner, a zero read returns the zero address, anything else
(thrown call or falsy value) defers to the next attempt. -/
def tryReadOwnerStep (res : CallResult String) : Option String :=
  match res with
  | CallResult.err _ => none
  | CallResult.ok owner =>
    if !(owner == "") && !(owner == ZERO_ADDRESS) then some owner
    else if owner == ZERO_ADDRESS then some ZERO_ADDRESS
    else none

/-- tryReadOwner of route.ts: try owner(), then getOwner(), each with its
own catch; null when neither yields an address. -/
def tryReadOwner (env : EthersOwnerEnv) : Option String :=
  match tryReadOwnerStep env.ownerCall with
  | some o => some o
  | none => tryReadOwnerStep env.getOwnerCall

/-- Inline ownership check of src/app/api/scan/route.ts (runOwnershipCheck).
The outer CallResult models the try/catch around the whole sequence: err is
any unexpected error, ok carries the outcomes of the two reads. -/
def runOwnershipCheck (env : CallResult EthersOwnerEnv) : RiskCheckResult :=
  match env with
  | CallResult.err msg =>
    { id := "ownership"
      label := "Contract Ownership"
      level := RiskLevel.yellow
      details := "Failed to read ownership info due to a contract or RPC error: " ++ msg ++ "." }
  | CallResult.ok e =>
    match tryReadOwner e with
    | none =>
      { id := "ownership"
        label := "Contract Ownership"
        level := RiskLevel.yellow
        details := "Ownership pattern is not a standard Ownable interface, so the owner address could not be read reliably. This does not automatically mean scam, but makes analysis harder." }
    | some owner =>
      if owner == ZERO_ADDRESS then
        { id := "ownership"
          label := "Contract Ownership"
          level := RiskLevel.green
          details := "Ownership is renounced (owner is the zero address). The deployer cannot change critical parameters via standard Ownable functions, which reduces rug risk from owner-controlled changes." }
      else
        { id := "ownership"
          label := "Contract Ownership"
          level := RiskLevel.yellow
          details := "Ownership is not renounced. Owner: " ++ owner ++ ". This is normal for many tokens (upgradable / tax logic / anti-bot), but it also means the team can still modify key parts of the contract logic. Treat this as additional rug risk unless the project is well-known and trusted." }

/-- Parsed request body of the POST handler: the raw optional fields before
validation. -/
structure ScanRequestBody where
  tokenAddress : Option String
  chain : Option String
deriving DecidableEq, Repr

/-- External outcomes the POST handler depends on, one per check. -/
structure ScanEnvs where
  ownerEnv : CallResult EthersOwnerEnv
  hpOutcome : RouteFetchOutcome
  lpEnv : LpEnv

/-- Responses the POST handler can produce: 200 with the aggregated result,
400 with a client error message, or 500 from the outer catch. -/
inductive PostResponse where
  | ok (result : AggregatedRiskResult)
  | clientError (msg : String)
  | serverError
deriving DecidableEq, Repr

/-- POST handler of src/app/api/scan/route.ts: body parse failure hits the
outer catch (500); a missing, empty or invalid trimmed address and an
unsupported chain are rejected with 400; a missing RPC URL makes getProvider
throw into the outer catch; otherwise the three checks run and their results
are aggregated in the fixed order ownership, honeypot, lp-health.  The
isAddr parameter stands for the collaborator ethers.isAddress. -/
def POSTscan (parseBody : CallResult ScanRequestBody) (isAddr : String → Bool)
    (providerOk : Bool) (envs : ScanEnvs) : PostResponse :=
  match parseBody with
  | CallResult.err _ => PostResponse.serverError
  | CallResult.ok body =>
    let chainStr := body.chain.getD "eth"
    match body.tokenAddress with
    | none => PostResponse.clientError "Invalid or missing token contract address."
    | some rawT =>
      let t := strTrim rawT
      if t == "" || !(isAddr t) then
        PostResponse.clientError "Invalid or missing token contract address."
      else if !(chainStr == "eth") && !(chainStr == "bsc") then
        PostResponse.clientError "Unsupported chain. Use \x27eth\x27 or \x27bsc\x27."
      else if !providerOk then PostResponse.serverError
      else
        let chain := if chainStr == "eth" then Chain.eth else Chain.bsc
        let ownership := runOwnershipCheck envs.ownerEnv
        let honeypot := runHoneypotCheck envs.hpOutcome
        let lpHealth := analyzeLiquidityAndLpHealth t chain envs.lpEnv
        let checks := [ownership, honeypot, lpHealth]
        PostResponse.ok { overall := aggregateOverallRisk checks, checks := checks }

/-- The inline ownership check always reports under id "ownership". -/
theorem runOwnershipCheck_id (env : CallResult EthersOwnerEnv) :
    (runOwnershipCheck env).id = "ownership" := by
  unfold runOwnershipCheck
  rcases env with e | m
  · cases htro : tryReadOwner e with
    | none => simp [htro]
    | some owner =>
      simp only [htro]
      by_cases h : (owner == ZERO_ADDRESS) = true <;> simp [h]
  · rfl

/-- The inline honeypot check always reports under id "honeypot". -/
theorem runHoneypotCheck_id (outcome : RouteFetchOutcome) :
    (runHoneypotCheck outcome).id = "honeypot" := by
  unfold runHoneypotCheck
  rcases outcome with m | ⟨ok, status, bodyText, parsed⟩
  · rfl
  · cases ok
    · by_cases h : (status == 404) = true <;> simp [h]
    · rcases parsed with _ | data
      · rfl
      · cases hc : coalesceIsHoneypot data with
        | none => simp [hc]
        | some b => cases b <;> simp [hc]

/-- The liquidity check always reports under id "lp-health". -/
theorem analyzeLiquidity_id (tokenAddress : String) (chain : Chain) (env : LpEnv) :
    (analyzeLiquidityAndLpHealth tokenAddress chain env).id = "lp-health" := by
  unfold analyzeLiquidityAndLpHealth
  rcases findPoolLoop env tokenAddress (DEX_CONFIG chain).baseTokens with _ | fp
  · rfl
  · rfl

/-- C10: every 200 response of the POST handler carries exactly three check
results, in the fixed order ownership, honeypot, lp-health — the ownership
result first, the honeypot result second and the liquidity result third,
whatever the outcomes of the individual checks were. -/
theorem post_checks_fixed_order (parseBody : CallResult ScanRequestBody)
    (isAddr : String → Bool) (providerOk : Bool) (envs : ScanEnvs)
    (r : AggregatedRiskResult)
    (h : POSTscan parseBody isAddr providerOk envs = PostResponse.ok r) :
    r.checks.length = 3 ∧
    r.checks.map (fun c => c.id) = ["ownership", "honeypot", "lp-health"] ∧
    ∃ t : String, ∃ chain : Chain,
      r.checks = [runOwnershipCheck envs.ownerEnv, runHoneypotCheck envs.hpOutcome,
        analyzeLiquidityAndLpHealth t chain envs.lpEnv] := by
  unfold POSTscan at h
  rcases parseBody with body | m
  · rcases body with ⟨tokenAddress, chainField⟩
    rcases tokenAddress with _ | rawT
    · exact absurd h (by simp)
    · dsimp only at h
      split_ifs at h with h1 h2 h3 h4 <;>
        first
          | exact PostResponse.noConfusion h
          | (injection h with hr
             subst hr
             exact ⟨rfl,
               by simp [runOwnershipCheck_id, runHoneypotCheck_id, analyzeLiquidity_id],
               strTrim rawT, _, rfl⟩)
  · exact PostResponse.noConfusion h

/-- Concrete request body for the POST witness. -/
def postBodyW : ScanRequestBody :=
  { tokenAddress := some "0xaaaaaaaaaaaaaaaaaaaaaaaaaaaaaaaaaaaaaaaa"
    chain := some "eth" }

/-- Concrete check environments for the POST witness: every external call
fails, exercising the degraded paths of all three checks. -/
def scanEnvsW : ScanEnvs :=
  { ownerEnv := CallResult.err "rpc down"
    hpOutcome := RouteFetchOutcome.fail "timeout"
    lpEnv := lpEnvFactoryErr }

/-- The aggregated result the POST witness scan produces, extracted by
computation. -/
def postResultW : AggregatedRiskResult :=
  match POSTscan (CallResult.ok postBodyW) (fun _ => true) true scanEnvsW with
  | PostResponse.ok r => r
  | _ => { overall := RiskLevel.green, checks := [] }

/-- Witness for C10: a concrete valid scan succeeds and its checks are the
three results in the fixed id order. -/
theorem post_checks_fixed_order_witness :
    POSTscan (CallResult.ok postBodyW) (fun _ => true) true scanEnvsW =
      PostResponse.ok postResultW ∧
    postResultW.checks.map (fun c => c.id) = ["ownership", "honeypot", "lp-health"] ∧
    postResultW.checks.length = 3 :=
  ⟨rfl,
   (post_checks_fixed_order (CallResult.ok postBodyW) (fun _ => true) true scanEnvsW
      postResultW rfl).2.1,
   (post_checks_fixed_order (CallResult.ok postBodyW) (fun _ => true) true scanEnvsW
      postResultW rfl).1⟩

/-- Shape invariant of the detail part lists of buildDetails: empty, or led
by a non-empty sentence. -/
def GoodParts (l : List String) : Prop :=
  l = [] ∨ ∃ p ps, l = p :: ps ∧ p ≠ ""

/-- GoodParts is closed under list append. -/
theorem goodParts_append (l1 l2 : List String)
    (h1 : GoodParts l1) (h2 : GoodParts l2) : GoodParts (l1 ++ l2) := by
  rcases h1 with rfl | ⟨p, ps, rfl, hne⟩
  · simpa using h2
  · exact Or.inr ⟨p, ps ++ l2, by simp, hne⟩

/-- joinParts of a list led by a non-empty string is non-empty. -/
theorem joinParts_ne_empty (sep p : String) (ps : List String) (h : p ≠ "") :
    joinParts sep (p :: ps) ≠ "" := by
  cases ps with
  | nil => simpa [joinParts] using h
  | cons q qs =>
    simp only [joinParts]
    exact append_ne_empty_left (p ++ sep) (joinParts sep (q :: qs))
      (append_ne_empty_left p sep h)

/-- The risk rating part of buildDetails is empty or a non-empty sentence. -/
theorem riskRatingPart_good (resp : HoneypotApiResponse) :
    GoodParts (riskRatingPart resp) := by
  unfold riskRatingPart
  cases hr : resp.summary.bind (fun s => s.risk) with
  | none => exact Or.inl rfl
  | some r =>
    dsimp only
    split
    · exact Or.inl rfl
    · split
      · exact Or.inr ⟨_, [], rfl, append_ne_empty_right _ _ (by decide)⟩
      · exact Or.inr ⟨_, [], rfl, append_ne_empty_right _ _ (by decide)⟩

/-- The honeypot report part of buildDetails is empty or a non-empty
sentence. -/
theorem honeypotReportPart_good (resp : HoneypotApiResponse) :
    GoodParts (honeypotReportPart resp) := by
  unfold honeypotReportPart
  cases resp.honeypotResult with
  | none => exact Or.inl rfl
  | some hp =>
    dsimp only
    split
    · split
      · split
        · exact Or.inr ⟨_, [], rfl, by decide⟩
        · exact Or.inr ⟨_, [], rfl, append_ne_empty_right _ _ (by decide)⟩
      · exact Or.inr ⟨_, [], rfl, by decide⟩
    · exact Or.inl rfl

/-- The taxes part of buildDetails is empty or a non-empty sentence. -/
theorem taxesPart_good (resp : HoneypotApiResponse) :
    GoodParts (taxesPart resp) := by
  unfold taxesPart
  cases resp.simulationResult with
  | none => exact Or.inl rfl
  | some sim =>
    dsimp only
    split
    · exact Or.inl rfl
    · exact Or.inr ⟨_, [], rfl, append_ne_empty_right _ _ (by decide)⟩

/-- The flags part of buildDetails is empty or a non-empty sentence. -/
theorem flagsPart_good (resp : HoneypotApiResponse) :
    GoodParts (flagsPart resp) := by
  unfold flagsPart
  cases hf : resp.summary.bind (fun s => s.flags) with
  | none => exact Or.inl rfl
  | some flags =>
    dsimp only
    split
    · exact Or.inl rfl
    · split
      · exact Or.inl rfl
      · exact Or.inr ⟨_, [], rfl, append_ne_empty_left _ _ (by decide)⟩

/-- buildDetails is never empty: some part contributes a non-empty first
sentence, or the non-empty fallback fires. -/
theorem buildDetails_ne_empty (resp : HoneypotApiResponse) (level : RiskLevel) :
    buildDetails resp level ≠ "" := by
  unfold buildDetails
  have hg : GoodParts (riskRatingPart resp ++ honeypotReportPart resp ++
      taxesPart resp ++ flagsPart resp) := by
    have h12 := goodParts_append _ _ (riskRatingPart_good resp) (honeypotReportPart_good resp)
    have h123 := goodParts_append _ _ h12 (taxesPart_good resp)
    exact goodParts_append _ _ h123 (flagsPart_good resp)
  rcases hg with hnil | ⟨p, ps, heq, hne⟩
  · rw [hnil]
    have hf : fallbackDetails level ≠ "" := by
      unfold fallbackDetails
      split_ifs <;> decide
    simpa [joinParts] using hf
  · rw [heq]
    have hc : ((p :: ps).isEmpty) = false := rfl
    simp only [hc, Bool.false_eq_true, if_false]
    exact joinParts_ne_empty " " p ps hne

/-- Every branch of checkOwner carries non-empty details. -/
theorem checkOwner_details_ne (validAddress : Bool) (chain : Chain) (env : OwnerEnv) :
    (checkOwner validAddress chain env).details ≠ "" := by
  unfold checkOwner
  cases validAddress with
  | false => simp
  | true =>
    cases hro : env.readOwner with
    | err m => simp [ownerUnknownResult]
    | ok owner =>
      simp only [Bool.not_true, Bool.false_eq_true, if_false]
      by_cases hz : (strToLower owner == strToLower ZERO_ADDRESS) = true
      · simp [hz]
      · simp only [hz, Bool.false_eq_true, if_false]
        by_cases ht : isTrustedOwner chain owner = true
        · simp only [ht, if_true]
          exact append_ne_empty_right _ _ (by decide)
        · simp only [ht, Bool.false_eq_true, if_false]
          cases hgc : env.getCode owner with
          | err m2 => simp [ownerUnknownResult]
          | ok code =>
            by_cases he : codeIsEmptyEOA code = true
            · simp only [he, if_true, ownerEoaResult]
              exact append_ne_empty_right _ _ (by decide)
            · simp only [he, Bool.false_eq_true, if_false, ownerContractResult]
              exact append_ne_empty_right _ _ (by decide)

/-- Every branch of checkHoneypot carries non-empty details. -/
theorem checkHoneypot_details_ne (outcome : HpFetchOutcome) :
    (checkHoneypot outcome).details ≠ "" := by
  unfold checkHoneypot
  cases outcome with
  | fail msg =>
    dsimp only
    exact append_ne_empty_right _ _ (by decide)
  | notOk status text =>
    dsimp only
    exact append_ne_empty_right _ _ (by decide)
  | okJson json =>
    dsimp only
    exact buildDetails_ne_empty json _

/-- The classification headline of the liquidity check is never empty. -/
theorem classify_headline_ne (kind : BaseKind) (q : ℚ) :
    (classifyLiquidity kind q).2 ≠ "" := by
  unfold classifyLiquidity
  cases kind <;> split_ifs <;> decide

/-- Every branch of the liquidity check carries non-empty details. -/
theorem analyzeLiquidity_details_ne (tokenAddress : String) (chain : Chain)
    (env : LpEnv) : (analyzeLiquidityAndLpHealth tokenAddress chain env).details ≠ "" := by
  unfold analyzeLiquidityAndLpHealth
  cases hf : findPoolLoop env tokenAddress (DEX_CONFIG chain).baseTokens with
  | none => simp [noUsablePoolResult]
  | some fp =>
    dsimp only
    exact joinParts_ne_empty _ _ _ (classify_headline_ne fp.base.kind fp.baseReserve)

/-- Every branch of the inline ownership check carries non-empty details. -/
theorem runOwnershipCheck_details_ne (env : CallResult EthersOwnerEnv) :
    (runOwnershipCheck env).details ≠ "" := by
  unfold runOwnershipCheck
  cases env with
  | ok e =>
    cases htro : tryReadOwner e with
    | none => simp [htro]
    | some owner =>
      simp only [htro]
      split
      · decide
      · exact append_ne_empty_right _ _ (by decide)
  | err m =>
    dsimp only
    exact append_ne_empty_right _ _ (by decide)

/-- Every branch of the inline honeypot check carries non-empty details. -/
theorem runHoneypotCheck_details_ne (outcome : RouteFetchOutcome) :
    (runHoneypotCheck outcome).details ≠ "" := by
  unfold runHoneypotCheck
  cases outcome with
  | fail msg =>
    dsimp only
    exact append_ne_empty_right _ _ (by decide)
  | resp ok status bodyText parsed =>
    cases ok
    · dsimp only
      by_cases h4 : (status == 404) = true
      · simp only [h4, if_true]
        exact append_ne_empty_right _ _ (by decide)
      · simp only [h4, Bool.false_eq_true, if_false]
        exact append_ne_empty_right _ _ (by decide)
    · cases parsed with
      | none =>
        dsimp only
        exact append_ne_empty_right _ _ (by decide)
      | some data =>
        dsimp only
        cases hc : coalesceIsHoneypot data with
        | none => simp [hc]
        | some b => cases b <;> simp [hc]

/-- C8: each check function of the scanner — the lib ownership and honeypot
checks, the liquidity check, and the two inline route variants — is total in
the embedding (every call outcome, including malformed payloads, non-2xx
statuses and thrown errors, is mapped to a RiskCheckResult rather than an
escaping exception), always yields a level within the three-value scale, and
always yields non-empty details. -/
theorem checks_total_and_details_nonempty :
    (∀ (validAddress : Bool) (chain : Chain) (env : OwnerEnv),
      ((checkOwner validAddress chain env).level = RiskLevel.green ∨
        (checkOwner validAddress chain env).level = RiskLevel.yellow ∨
        (checkOwner validAddress chain env).level = RiskLevel.red) ∧
      (checkOwner validAddress chain env).details ≠ "") ∧
    (∀ outcome : HpFetchOutcome,
      ((checkHoneypot outcome).level = RiskLevel.green ∨
        (checkHoneypot outcome).level = RiskLevel.yellow ∨
        (checkHoneypot outcome).level = RiskLevel.red) ∧
      (checkHoneypot outcome).details ≠ "") ∧
    (∀ (tokenAddress : String) (chain : Chain) (env : LpEnv),
      ((analyzeLiquidityAndLpHealth tokenAddress chain env).level = RiskLevel.green ∨
        (analyzeLiquidityAndLpHealth tokenAddress chain env).level = RiskLevel.yellow ∨
        (analyzeLiquidityAndLpHealth tokenAddress chain env).level = RiskLevel.red) ∧
      (analyzeLiquidityAndLpHealth tokenAddress chain env).details ≠ "") ∧
    (∀ env : CallResult EthersOwnerEnv,
      ((runOwnershipCheck env).level = RiskLevel.green ∨
        (runOwnershipCheck env).level = RiskLevel.yellow ∨
        (runOwnershipCheck env).level = RiskLevel.red) ∧
      (runOwnershipCheck env).details ≠ "") ∧
    (∀ outcome : RouteFetchOutcome,
      ((runHoneypotCheck outcome).level = RiskLevel.green ∨
        (runHoneypotCheck outcome).level = RiskLevel.yellow ∨
        (runHoneypotCheck outcome).level = RiskLevel.red) ∧
      (runHoneypotCheck outcome).details ≠ "") :=
  ⟨fun v c e => ⟨riskLevel_cases _, checkOwner_details_ne v c e⟩,
   fun o => ⟨riskLevel_cases _, checkHoneypot_details_ne o⟩,
   fun t c e => ⟨riskLevel_cases _, analyzeLiquidity_details_ne t c e⟩,
   fun e => ⟨riskLevel_cases _, runOwnershipCheck_details_ne e⟩,
   fun o => ⟨riskLevel_cases _, runHoneypotCheck_details_ne o⟩⟩
